import Mathlib

/-!
# Soft double buffer: video memory manager

A shallow embedding of `examples/medium/softDoubleBuffer/src/manageVideoMem.c`
(CPCtelera) and the properties of its buffer-flipping logic.

The C file keeps one global flag `gVMem` that tracks which of the two hardware
screen buffers is being displayed, and one static sprite buffer.  Every C
function becomes a state-passing Lean function.  Calls into the CPCtelera
library and stores to `gVMem` are recorded, in program order, in a trace.
-/

namespace SoftDoubleBuffer

/-! ## Machine integers -/

/-- Conversion to the 8-bit unsigned type `u8`. -/
def u8 (n : Nat) : Nat := n % 256

/-- Conversion to a 16-bit Z80 address (cast to `u8*`). -/
def u16 (n : Nat) : Nat := n % 65536

/-- Byte-addressed memory. -/
abbrev Mem := Nat → Nat

/-! ## Declarations the C file imports -/

/-- Names that `manageVideoMem.c` takes from `declarations.h` and `cpctelera.h`.
Neither header is part of the sources at hand, so the constants, the address the
linker gives to the array `gSpriteBackBuffer`, and the two library routines whose
result depends on the CPC screen layout are parameters of the embedding. -/
structure Env where
  /-- Flag value: the primary video memory is displayed. -/
  VIDEO_MEM : Nat
  /-- Flag value: the hardware back buffer is displayed. -/
  BUFFER_MEM : Nat
  /-- Base address of the secondary screen buffer. -/
  SCREEN_BUFF : Nat
  /-- Base address of the primary video memory. -/
  CPCT_VMEM_START : Nat
  /-- Page constant selecting the primary video memory. -/
  cpct_pageC0 : Nat
  /-- Page constant selecting the secondary screen buffer. -/
  cpct_page80 : Nat
  /-- Viewport origin, x. -/
  VIEW_X : Nat
  /-- Viewport origin, y. -/
  VIEW_Y : Nat
  /-- Viewport width in bytes. -/
  VIEW_W_BYTES : Nat
  /-- Viewport height. -/
  VIEW_H_BYTES : Nat
  /-- Address of the static array `u8 gSpriteBackBuffer[VIEW_W_BYTES*VIEW_H_BYTES]`. -/
  gSpriteBackBuffer : Nat
  /-- Library routine `cpct_getScreenPtr (base, x, y)`: one fixed function. -/
  getScreenPtr : Nat → Nat → Nat → Nat
  /-- Memory effect of the library routine
  `cpct_drawSprite (sprite, dest, width, height)`. -/
  drawSprite : Mem → Nat → Nat → Nat → Nat → Mem

/-- The constants fit the C types they are used at: the flag values, the page
constants, the viewport origin and the viewport size are `u8`, the base
addresses are 16-bit addresses. -/
def Env.WellTyped (d : Env) : Prop :=
  d.VIDEO_MEM < 256 ∧ d.BUFFER_MEM < 256 ∧
  d.SCREEN_BUFF < 65536 ∧ d.CPCT_VMEM_START < 65536 ∧
  d.cpct_pageC0 < 256 ∧ d.cpct_page80 < 256 ∧
  d.VIEW_X < 256 ∧ d.VIEW_Y < 256 ∧
  d.VIEW_W_BYTES < 256 ∧ d.VIEW_H_BYTES < 256

instance (d : Env) : Decidable d.WellTyped := by
  unfold Env.WellTyped; infer_instance

/-! ## State and trace -/

/-- Library calls and flag stores, as they occur in program order. -/
inductive Event where
  /-- Call `cpct_memset (array, value, size)`. -/
  | memset (array value size : Nat)
  /-- Call `cpct_waitVSYNC ()`. -/
  | waitVSYNC
  /-- Call `cpct_setVideoMemoryPage (page)`. -/
  | setVideoMemoryPage (page : Nat)
  /-- Call `cpct_getScreenPtr (base, x, y)`. -/
  | getScreenPtr (base x y : Nat)
  /-- Call `cpct_drawSprite (sprite, dest, width, height)`. -/
  | drawSprite (sprite dest width height : Nat)
  /-- Store to the global `gVMem`. -/
  | store_gVMem (value : Nat)
  deriving DecidableEq, Repr

/-- Program and hardware state.  The global `gVMem` is kept apart from `mem`:
its own storage is not inside any of the regions the code writes to. -/
structure State where
  /-- The global `u8 gVMem`. -/
  gVMem : Nat
  /-- Memory: both screen regions and the sprite buffer live here. -/
  mem : Mem
  /-- Video page register of the display hardware. -/
  page : Nat
  /-- Events so far. -/
  trace : List Event

/-! ## CPCtelera primitives -/

/-- Modelled from the spec: the memory-set primitive `cpct_memset` (library
code, not among the sources).  It sets the `size` bytes starting at `array` to
`value`; the call is recorded. -/
def cpct_memset (s : State) (array value size : Nat) : State :=
  { s with
    mem := fun a => if array ≤ a ∧ a < array + size then u8 value else s.mem a
    trace := s.trace ++ [Event.memset array value size] }

/-- Modelled from the spec: the vsync wait primitive `cpct_waitVSYNC` (library
code, not among the sources).  A blocking poll that always returns; it changes
neither memory nor the page register. -/
def cpct_waitVSYNC (s : State) : State :=
  { s with trace := s.trace ++ [Event.waitVSYNC] }

/-- Modelled from the spec: the page switch `cpct_setVideoMemoryPage` (library
code, not among the sources).  It writes the page-select register. -/
def cpct_setVideoMemoryPage (s : State) (page : Nat) : State :=
  { s with page := u8 page, trace := s.trace ++ [Event.setVideoMemoryPage (u8 page)] }

/-- The coordinate-to-pointer routine `cpct_getScreenPtr`; its value is the
parameter `Env.getScreenPtr`, the call is recorded. -/
def cpct_getScreenPtr (d : Env) (s : State) (base x y : Nat) : Nat × State :=
  (d.getScreenPtr base (u8 x) (u8 y),
   { s with trace := s.trace ++ [Event.getScreenPtr base (u8 x) (u8 y)] })

/-- The sprite-draw primitive `cpct_drawSprite`; its memory effect is the
parameter `Env.drawSprite`, the call is recorded. -/
def cpct_drawSprite (d : Env) (s : State) (sprite dest width height : Nat) : State :=
  { s with
    mem := d.drawSprite s.mem sprite dest (u8 width) (u8 height)
    trace := s.trace ++ [Event.drawSprite sprite dest (u8 width) (u8 height)] }

/-- Modelled from the spec: the macro `cpctm_spriteBufferPtr (buffer, width, x, y)`
(a library header, not among the sources): the address of (x, y) in a sprite
buffer whose rows are `width` bytes, as a 16-bit pointer. -/
def cpctm_spriteBufferPtr (buffer width x y : Nat) : Nat :=
  u16 (buffer + width * y + x)

/-- The assignment `gVMem = value`. -/
def store_gVMem (s : State) (value : Nat) : State :=
  { s with gVMem := u8 value, trace := s.trace ++ [Event.store_gVMem (u8 value)] }

/-! ## The functions of `manageVideoMem.c` -/

/-- `void InitializeVideoMemoryBuffers()`. -/
def InitializeVideoMemoryBuffers (d : Env) (s : State) : State :=
  let s1 := cpct_memset s (u16 d.SCREEN_BUFF) 0 0x4000
  store_gVMem s1 d.VIDEO_MEM

/-- `void FlipBuffers()`. -/
def FlipBuffers (d : Env) (s : State) : State :=
  let s1 := cpct_waitVSYNC s
  if s1.gVMem = d.BUFFER_MEM then
    store_gVMem (cpct_setVideoMemoryPage s1 d.cpct_pageC0) d.VIDEO_MEM
  else
    store_gVMem (cpct_setVideoMemoryPage s1 d.cpct_page80) d.BUFFER_MEM

/-- `u8* GetScreenPtr(u8 xPos, u8 yPos)`. -/
def GetScreenPtr (d : Env) (s : State) (xPos yPos : Nat) : Nat × State :=
  let screenStart := if s.gVMem = d.VIDEO_MEM then u16 d.CPCT_VMEM_START else u16 d.SCREEN_BUFF
  cpct_getScreenPtr d s screenStart xPos yPos

/-- `u8* GetBackBufferPtr(u8 xPos, u8 yPos)`. -/
def GetBackBufferPtr (d : Env) (s : State) (xPos yPos : Nat) : Nat × State :=
  let backBufferStart := if s.gVMem = d.VIDEO_MEM then u16 d.SCREEN_BUFF else u16 d.CPCT_VMEM_START
  cpct_getScreenPtr d s backBufferStart xPos yPos

/-- `u8* GetSpriteBackBufferPtr(u8 xPos, u8 yPos)`. -/
def GetSpriteBackBufferPtr (d : Env) (s : State) (xPos yPos : Nat) : Nat × State :=
  (cpctm_spriteBufferPtr d.gSpriteBackBuffer d.VIEW_W_BYTES (u8 xPos) (u8 yPos), s)

/-- `void DrawSpriteBackBufferToScreen()`. -/
def DrawSpriteBackBufferToScreen (d : Env) (s : State) : State :=
  let r := GetScreenPtr d s d.VIEW_X d.VIEW_Y
  let pVideoMemLocation := r.1
  let s2 := cpct_waitVSYNC r.2
  cpct_drawSprite d s2 d.gSpriteBackBuffer pVideoMemLocation d.VIEW_W_BYTES d.VIEW_H_BYTES

/-! ## Call sequences -/

/-- One call of a function of the module. -/
inductive Op where
  | init
  | flip
  | getScreenPtr (x y : Nat)
  | getBackBufferPtr (x y : Nat)
  | getSpriteBackBufferPtr (x y : Nat)
  | drawSpriteBackBuffer
  deriving DecidableEq, Repr

/-- State after one call. -/
def Op.step (d : Env) (s : State) : Op → State
  | .init => InitializeVideoMemoryBuffers d s
  | .flip => FlipBuffers d s
  | .getScreenPtr x y => (GetScreenPtr d s x y).2
  | .getBackBufferPtr x y => (GetBackBufferPtr d s x y).2
  | .getSpriteBackBufferPtr x y => (GetSpriteBackBufferPtr d s x y).2
  | .drawSpriteBackBuffer => DrawSpriteBackBufferToScreen d s

/-- State after a sequence of calls, first call first. -/
def run (d : Env) (s : State) (ops : List Op) : State :=
  ops.foldl (Op.step d) s

/-- State after `InitializeVideoMemoryBuffers` and `n` calls of `FlipBuffers`. -/
def flips (d : Env) (s0 : State) (n : Nat) : State :=
  run d (InitializeVideoMemoryBuffers d s0) (List.replicate n Op.flip)

/-! ## Regions -/

/-- Size in bytes of one hardware screen region (16 KiB). -/
def regionSize : Nat := 0x4000

/-- Address `a` lies in the screen region that starts at `base`. -/
def inRegion (base a : Nat) : Prop := base ≤ a ∧ a < base + regionSize

instance (base a : Nat) : Decidable (inRegion base a) := by
  unfold inRegion; infer_instance

/-- Base of the region that the display flag marks as displayed. -/
def displayedBase (d : Env) (flag : Nat) : Option Nat :=
  if flag = d.VIDEO_MEM then some d.CPCT_VMEM_START
  else if flag = d.BUFFER_MEM then some d.SCREEN_BUFF
  else none

/-- Base of the region that the display flag marks as not displayed. -/
def hiddenBase (d : Env) (flag : Nat) : Option Nat :=
  if flag = d.VIDEO_MEM then some d.SCREEN_BUFF
  else if flag = d.BUFFER_MEM then some d.CPCT_VMEM_START
  else none

/-- Modelled from the spec: the hardware page-select register (display hardware,
not among the sources).  Page C0 scans out the region at `CPCT_VMEM_START`,
page 80 the region at `SCREEN_BUFF`; no other page is ever written by the
module. -/
def scannedBase (d : Env) (page : Nat) : Option Nat :=
  if page = d.cpct_pageC0 then some d.CPCT_VMEM_START
  else if page = d.cpct_page80 then some d.SCREEN_BUFF
  else none

/-! ## A concrete machine -/

/-- Address of the pixel line below the one that holds `p` (CPC screen layout:
lines of one character row are 0x800 apart, character rows 0x50 apart). -/
def nextLine (p : Nat) : Nat :=
  let q := u16 (p + 0x800)
  if (q / 0x800) % 8 = 0 then u16 (q + 0xC050) else q

/-- Address of the `r`-th pixel line below `dest`. -/
def lineAddr (dest : Nat) : Nat → Nat
  | 0 => dest
  | r + 1 => nextLine (lineAddr dest r)

/-- Row-by-row copy of a `width` x `height` sprite to the screen lines that
start at `dest`.  A byte of the result is the sprite byte that the last write to
its address stored, or the old byte when no write goes there.  Sprite bytes are
read from the memory as it is before the copy. -/
def blit (mem : Mem) (sprite dest width height : Nat) : Mem := fun a =>
  match ((List.range height).product (List.range width)).reverse.find?
      (fun rc => a = u16 (lineAddr dest rc.1 + rc.2)) with
  | some rc => mem (u16 (sprite + rc.1 * width + rc.2))
  | none => mem a

/-- Modelled from the spec: one concrete choice for the names of `Env` (the
headers are not among the sources).  Screen buffer at 0x8000 (as the comment in
`InitializeVideoMemoryBuffers` says), video memory at 0xC000, the standard CPC
pointer-from-coordinates formula, and a sprite blit that copies row by row. -/
def cpc : Env where
  VIDEO_MEM := 0
  BUFFER_MEM := 1
  SCREEN_BUFF := 0x8000
  CPCT_VMEM_START := 0xC000
  cpct_pageC0 := 0x30
  cpct_page80 := 0x20
  VIEW_X := 20
  VIEW_Y := 48
  VIEW_W_BYTES := 40
  VIEW_H_BYTES := 100
  gSpriteBackBuffer := 0x5000
  getScreenPtr := fun base x y => u16 (base + 80 * (y / 8) + 2048 * (y % 8) + x)
  drawSprite := blit

/-- A start state for `cpc`: the hardware scans out page C0, no byte of memory
is zero, the flag holds a value that is neither `VIDEO_MEM` nor `BUFFER_MEM`. -/
def boot : State where
  gVMem := 7
  mem := fun a => a % 251 + 1
  page := 0x30
  trace := []

/-! ## Predicates on states and traces -/

/-- The flag holds one of its two named values. -/
def FlagOk (d : Env) (s : State) : Prop :=
  s.gVMem = d.VIDEO_MEM ∨ s.gVMem = d.BUFFER_MEM

/-- The flag and the page register name the same region. -/
def Agree (d : Env) (s : State) : Prop :=
  (s.gVMem = d.VIDEO_MEM ∧ s.page = d.cpct_pageC0) ∨
  (s.gVMem = d.BUFFER_MEM ∧ s.page = d.cpct_page80)

instance (d : Env) (s : State) : Decidable (Agree d s) := by
  unfold Agree; infer_instance

/-- The two screen regions do not overlap. -/
def Env.RegionsDisjoint (d : Env) : Prop :=
  d.SCREEN_BUFF + regionSize ≤ d.CPCT_VMEM_START ∨
  d.CPCT_VMEM_START + regionSize ≤ d.SCREEN_BUFF

instance (d : Env) : Decidable d.RegionsDisjoint := by
  unfold Env.RegionsDisjoint; infer_instance

/-- Events that a call added to the trace. -/
def newEvents (before after : State) : List Event :=
  after.trace.drop before.trace.length

/-- The event is a vsync wait. -/
def Event.isVsync : Event → Bool
  | .waitVSYNC => true
  | _ => false

/-- The event is a sprite blit. -/
def Event.isBlit : Event → Bool
  | .drawSprite _ _ _ _ => true
  | _ => false

/-- The event is a write of the page register. -/
def Event.isPageWrite : Event → Bool
  | .setVideoMemoryPage _ => true
  | _ => false

/-- The event is a store to the flag. -/
def Event.isFlagStore : Event → Bool
  | .store_gVMem _ => true
  | _ => false

/-! ## Basic facts -/

theorem u8_of_lt {n : Nat} (h : n < 256) : u8 n = n := Nat.mod_eq_of_lt h

theorem u16_of_lt {n : Nat} (h : n < 65536) : u16 n = n := Nat.mod_eq_of_lt h

theorem init_gVMem (d : Env) (s : State) :
    (InitializeVideoMemoryBuffers d s).gVMem = u8 d.VIDEO_MEM := rfl

theorem init_page (d : Env) (s : State) :
    (InitializeVideoMemoryBuffers d s).page = s.page := rfl

theorem init_mem (d : Env) (s : State) (a : Nat) :
    (InitializeVideoMemoryBuffers d s).mem a =
      if u16 d.SCREEN_BUFF ≤ a ∧ a < u16 d.SCREEN_BUFF + 0x4000 then 0 else s.mem a := rfl

theorem flip_gVMem (d : Env) (s : State) :
    (FlipBuffers d s).gVMem =
      if s.gVMem = d.BUFFER_MEM then u8 d.VIDEO_MEM else u8 d.BUFFER_MEM := by
  by_cases h : s.gVMem = d.BUFFER_MEM <;>
    simp [FlipBuffers, cpct_waitVSYNC, store_gVMem, cpct_setVideoMemoryPage, h]

theorem flip_page (d : Env) (s : State) :
    (FlipBuffers d s).page =
      if s.gVMem = d.BUFFER_MEM then u8 d.cpct_pageC0 else u8 d.cpct_page80 := by
  by_cases h : s.gVMem = d.BUFFER_MEM <;>
    simp [FlipBuffers, cpct_waitVSYNC, store_gVMem, cpct_setVideoMemoryPage, h]

theorem flip_mem (d : Env) (s : State) : (FlipBuffers d s).mem = s.mem := by
  by_cases h : s.gVMem = d.BUFFER_MEM <;>
    simp [FlipBuffers, cpct_waitVSYNC, store_gVMem, cpct_setVideoMemoryPage, h]

theorem flip_trace (d : Env) (s : State) :
    (FlipBuffers d s).trace = s.trace ++
      [Event.waitVSYNC,
       Event.setVideoMemoryPage
         (if s.gVMem = d.BUFFER_MEM then u8 d.cpct_pageC0 else u8 d.cpct_page80),
       Event.store_gVMem
         (if s.gVMem = d.BUFFER_MEM then u8 d.VIDEO_MEM else u8 d.BUFFER_MEM)] := by
  by_cases h : s.gVMem = d.BUFFER_MEM <;>
    simp [FlipBuffers, cpct_waitVSYNC, store_gVMem, cpct_setVideoMemoryPage, h]

theorem draw_gVMem (d : Env) (s : State) :
    (DrawSpriteBackBufferToScreen d s).gVMem = s.gVMem := rfl

theorem draw_page (d : Env) (s : State) :
    (DrawSpriteBackBufferToScreen d s).page = s.page := rfl

theorem step_gVMem_of_ne_init_flip (d : Env) (s : State) (op : Op)
    (h1 : op ≠ Op.init) (h2 : op ≠ Op.flip) :
    (op.step d s).gVMem = s.gVMem ∧ (op.step d s).page = s.page := by
  cases op <;> first | exact absurd rfl h1 | exact absurd rfl h2 | exact ⟨rfl, rfl⟩

theorem step_flagOk (d : Env) (hd : d.WellTyped) (s : State) (op : Op)
    (h : FlagOk d s) : FlagOk d (op.step d s) := by
  obtain ⟨hV, hB, -⟩ := hd
  cases op with
  | init => exact Or.inl (by simp [Op.step, init_gVMem, u8_of_lt hV])
  | flip =>
    simp only [Op.step, FlagOk, flip_gVMem, u8_of_lt hV, u8_of_lt hB]
    split
    · exact Or.inl rfl
    · exact Or.inr rfl
  | getScreenPtr x y => exact h
  | getBackBufferPtr x y => exact h
  | getSpriteBackBufferPtr x y => exact h
  | drawSpriteBackBuffer => exact h

theorem run_flagOk (d : Env) (hd : d.WellTyped) (ops : List Op) :
    ∀ s : State, FlagOk d s → FlagOk d (run d s ops) := by
  induction ops with
  | nil => intro s h; exact h
  | cons op ops ih => intro s h; exact ih _ (step_flagOk d hd s op h)

theorem init_flagOk (d : Env) (hd : d.WellTyped) (s : State) :
    FlagOk d (InitializeVideoMemoryBuffers d s) :=
  Or.inl (by rw [init_gVMem, u8_of_lt hd.1])

theorem step_agree (d : Env) (hd : d.WellTyped) (hne : d.VIDEO_MEM ≠ d.BUFFER_MEM)
    (s : State) (op : Op) (hop : op ≠ Op.init) (h : Agree d s) :
    Agree d (op.step d s) := by
  obtain ⟨hV, hB, -, -, hC, hP, -⟩ := hd
  by_cases hf : op = Op.flip
  · subst hf
    simp only [Op.step, Agree, flip_gVMem, flip_page, u8_of_lt hV, u8_of_lt hB,
      u8_of_lt hC, u8_of_lt hP]
    rcases h with ⟨h1, -⟩ | ⟨h1, -⟩
    · have : ¬ s.gVMem = d.BUFFER_MEM := by rw [h1]; exact hne
      simp [this]
    · simp [h1]
  · obtain ⟨e1, e2⟩ := step_gVMem_of_ne_init_flip d s op hop hf
    simpa [Agree, e1, e2] using h

theorem run_agree (d : Env) (hd : d.WellTyped) (hne : d.VIDEO_MEM ≠ d.BUFFER_MEM)
    (ops : List Op) (hops : Op.init ∉ ops) :
    ∀ s : State, Agree d s → Agree d (run d s ops) := by
  induction ops with
  | nil => intro s h; exact h
  | cons op ops ih =>
    intro s h
    have h1 : op ≠ Op.init := fun e => hops (by simp [e])
    have h2 : Op.init ∉ ops := fun m => hops (List.mem_cons_of_mem _ m)
    exact ih h2 _ (step_agree d hd hne s op h1 h)

theorem flips_succ (d : Env) (s0 : State) (n : Nat) :
    flips d s0 (n + 1) = FlipBuffers d (flips d s0 n) := by
  simp [flips, run, List.replicate_succ', List.foldl_append, Op.step]

theorem flips_mem (d : Env) (s0 : State) (n : Nat) :
    (flips d s0 n).mem = (InitializeVideoMemoryBuffers d s0).mem := by
  induction n with
  | zero => rfl
  | succ n ih => rw [flips_succ, flip_mem, ih]

theorem flips_flag (d : Env) (hd : d.WellTyped) (s0 : State) (n : Nat) :
    (flips d s0 n).gVMem = if n % 2 = 0 then d.VIDEO_MEM else d.BUFFER_MEM := by
  obtain ⟨hV, hB, -⟩ := hd
  induction n with
  | zero => simp [flips, run, init_gVMem, u8_of_lt hV]
  | succ n ih =>
    rw [flips_succ, flip_gVMem, ih, u8_of_lt hV, u8_of_lt hB]
    rcases Nat.mod_two_eq_zero_or_one n with h | h
    · have h1 : (n + 1) % 2 = 1 := by omega
      by_cases e : d.VIDEO_MEM = d.BUFFER_MEM <;> simp [h, h1, e]
    · have h1 : (n + 1) % 2 = 0 := by omega
      simp [h, h1]

/-! ## Flag alternation -/

/-- C1: after `InitializeVideoMemoryBuffers` and `n` calls of `FlipBuffers` the
flag `gVMem` is `VIDEO_MEM` for even `n` and `BUFFER_MEM` for odd `n`; two more
flips give the same flag value again, initialize-flip-flip ends in `VIDEO_MEM`,
and consecutive states differ when the two flag values are distinct. -/
theorem flips_alternate (d : Env) (hd : d.WellTyped) (s0 : State) (n : Nat) :
    (flips d s0 n).gVMem = (if n % 2 = 0 then d.VIDEO_MEM else d.BUFFER_MEM) ∧
    (FlipBuffers d (FlipBuffers d (flips d s0 n))).gVMem = (flips d s0 n).gVMem ∧
    (FlipBuffers d (FlipBuffers d (InitializeVideoMemoryBuffers d s0))).gVMem
      = d.VIDEO_MEM ∧
    (d.VIDEO_MEM ≠ d.BUFFER_MEM →
      (FlipBuffers d (flips d s0 n)).gVMem ≠ (flips d s0 n).gVMem) := by
  have h0 := flips_flag d hd s0 n
  have h1 := flips_flag d hd s0 (n + 1)
  have h2 := flips_flag d hd s0 (n + 2)
  have h3 := flips_flag d hd s0 2
  rw [flips_succ, flips_succ] at h2
  rw [flips_succ] at h1
  have e3 : flips d s0 2 =
      FlipBuffers d (FlipBuffers d (InitializeVideoMemoryBuffers d s0)) := by
    rw [flips_succ, flips_succ]; rfl
  rw [e3] at h3
  refine ⟨h0, ?_, ?_, ?_⟩
  · rw [h2, h0]
    have : (n + 2) % 2 = n % 2 := by omega
    rw [this]
  · simpa using h3
  · intro hne
    rw [h1, h0]
    rcases Nat.mod_two_eq_zero_or_one n with h | h
    · have h4 : (n + 1) % 2 = 1 := by omega
      simpa [h, h4] using hne.symm
    · have h4 : (n + 1) % 2 = 0 := by omega
      simpa [h, h4] using hne

/-- Witness for C1 on the concrete machine, three flips. -/
theorem flips_alternate_witness :
    cpc.WellTyped ∧ (flips cpc boot 3).gVMem = cpc.BUFFER_MEM ∧
    (FlipBuffers cpc (FlipBuffers cpc (flips cpc boot 3))).gVMem = (flips cpc boot 3).gVMem ∧
    (FlipBuffers cpc (FlipBuffers cpc (InitializeVideoMemoryBuffers cpc boot))).gVMem
      = cpc.VIDEO_MEM ∧
    (cpc.VIDEO_MEM ≠ cpc.BUFFER_MEM →
      (FlipBuffers cpc (flips cpc boot 3)).gVMem ≠ (flips cpc boot 3).gVMem) :=
  ⟨by decide, flips_alternate cpc (by decide) boot 3⟩

/-! ## Pointer roles -/

/-- C2: in every state reached after `InitializeVideoMemoryBuffers`, one
`FlipBuffers` swaps the two pointer operations: `GetScreenPtr (x, y)` after the
flip is `GetBackBufferPtr (x, y)` before it, and the other way round. -/
theorem flip_swaps_pointers (d : Env) (hd : d.WellTyped)
    (hne : d.VIDEO_MEM ≠ d.BUFFER_MEM) (s0 : State) (ops : List Op) (x y : Nat) :
    (GetScreenPtr d (FlipBuffers d (run d (InitializeVideoMemoryBuffers d s0) ops)) x y).1
      = (GetBackBufferPtr d (run d (InitializeVideoMemoryBuffers d s0) ops) x y).1 ∧
    (GetBackBufferPtr d (FlipBuffers d (run d (InitializeVideoMemoryBuffers d s0) ops)) x y).1
      = (GetScreenPtr d (run d (InitializeVideoMemoryBuffers d s0) ops) x y).1 := by
  have hf := run_flagOk d hd ops _ (init_flagOk d hd s0)
  obtain ⟨hV, hB, -⟩ := hd
  generalize run d (InitializeVideoMemoryBuffers d s0) ops = s at hf
  simp only [GetScreenPtr, GetBackBufferPtr, cpct_getScreenPtr, flip_gVMem,
    u8_of_lt hV, u8_of_lt hB]
  rcases hf with h | h
  · have : ¬ d.VIDEO_MEM = d.BUFFER_MEM := hne
    simp [h, this, hne.symm]
  · simp [h, hne.symm]

/-- Witness for C2 on the concrete machine. -/
theorem flip_swaps_pointers_witness :
    cpc.WellTyped ∧ cpc.VIDEO_MEM ≠ cpc.BUFFER_MEM ∧
    (GetScreenPtr cpc (FlipBuffers cpc
        (run cpc (InitializeVideoMemoryBuffers cpc boot) [Op.flip, Op.drawSpriteBackBuffer])) 3 9).1
      = (GetBackBufferPtr cpc
        (run cpc (InitializeVideoMemoryBuffers cpc boot) [Op.flip, Op.drawSpriteBackBuffer]) 3 9).1 ∧
    (GetBackBufferPtr cpc (FlipBuffers cpc
        (run cpc (InitializeVideoMemoryBuffers cpc boot) [Op.flip, Op.drawSpriteBackBuffer])) 3 9).1
      = (GetScreenPtr cpc
        (run cpc (InitializeVideoMemoryBuffers cpc boot) [Op.flip, Op.drawSpriteBackBuffer]) 3 9).1 :=
  ⟨by decide, by decide,
    flip_swaps_pointers cpc (by decide) (by decide) boot [Op.flip, Op.drawSpriteBackBuffer] 3 9⟩

/-! ## Initialization -/

/-- C3: after `InitializeVideoMemoryBuffers`, from any prior state, the flag is
`VIDEO_MEM` and every byte of the 0x4000-byte span that starts at `SCREEN_BUFF`
is zero, its first and its last byte among them. -/
theorem init_clears_back_buffer (d : Env) (hd : d.WellTyped) (s : State) :
    (InitializeVideoMemoryBuffers d s).gVMem = d.VIDEO_MEM ∧
    (∀ a, d.SCREEN_BUFF ≤ a → a < d.SCREEN_BUFF + 0x4000 →
      (InitializeVideoMemoryBuffers d s).mem a = 0) ∧
    (InitializeVideoMemoryBuffers d s).mem d.SCREEN_BUFF = 0 ∧
    (InitializeVideoMemoryBuffers d s).mem (d.SCREEN_BUFF + 0x3FFF) = 0 := by
  obtain ⟨hV, -, hS, -⟩ := hd
  have key : ∀ a, d.SCREEN_BUFF ≤ a → a < d.SCREEN_BUFF + 0x4000 →
      (InitializeVideoMemoryBuffers d s).mem a = 0 := by
    intro a h1 h2
    rw [init_mem, u16_of_lt hS, if_pos ⟨h1, h2⟩]
  refine ⟨by rw [init_gVMem, u8_of_lt hV], key, key _ (le_refl _) (by omega),
    key _ (by omega) (by omega)⟩

/-- Witness for C3 on the concrete machine, whose start state has no zero byte. -/
theorem init_clears_back_buffer_witness :
    cpc.WellTyped ∧ boot.mem 0x8000 ≠ 0 ∧ boot.mem 0xBFFF ≠ 0 ∧
    (InitializeVideoMemoryBuffers cpc boot).gVMem = 0 ∧
    (InitializeVideoMemoryBuffers cpc boot).mem 0x8000 = 0 ∧
    (InitializeVideoMemoryBuffers cpc boot).mem 0xBFFF = 0 :=
  ⟨by decide, by decide, by decide,
    (init_clears_back_buffer cpc (by decide) boot).1,
    (init_clears_back_buffer cpc (by decide) boot).2.2.1,
    (init_clears_back_buffer cpc (by decide) boot).2.2.2⟩

/-! ## The sprite blit -/

theorem draw_trace (d : Env) (s : State) :
    (DrawSpriteBackBufferToScreen d s).trace = s.trace ++
      [Event.getScreenPtr
         (if s.gVMem = d.VIDEO_MEM then u16 d.CPCT_VMEM_START else u16 d.SCREEN_BUFF)
         (u8 d.VIEW_X) (u8 d.VIEW_Y),
       Event.waitVSYNC,
       Event.drawSprite d.gSpriteBackBuffer (GetScreenPtr d s d.VIEW_X d.VIEW_Y).1
         (u8 d.VIEW_W_BYTES) (u8 d.VIEW_H_BYTES)] := by
  simp [DrawSpriteBackBufferToScreen, GetScreenPtr, cpct_getScreenPtr, cpct_waitVSYNC,
    cpct_drawSprite]

theorem draw_mem (d : Env) (s : State) :
    (DrawSpriteBackBufferToScreen d s).mem =
      d.drawSprite s.mem d.gSpriteBackBuffer (GetScreenPtr d s d.VIEW_X d.VIEW_Y).1
        (u8 d.VIEW_W_BYTES) (u8 d.VIEW_H_BYTES) := rfl

theorem newEvents_append (s t : State) (l : List Event) (h : t.trace = s.trace ++ l) :
    newEvents s t = l := by
  simp [newEvents, h]

/-- C4, as stated, fails on the concrete machine: right after initialization the
flag marks the region at 0xC000 as displayed and the region at 0x8000 as hidden;
the blit of `DrawSpriteBackBufferToScreen` goes to address 49652, which lies in
the displayed region and not in the hidden one, and the displayed byte at that
address changes from 206 to 150. -/
theorem draw_hits_displayed_region_cpc :
    displayedBase cpc (InitializeVideoMemoryBuffers cpc boot).gVMem = some 0xC000 ∧
    hiddenBase cpc (InitializeVideoMemoryBuffers cpc boot).gVMem = some 0x8000 ∧
    newEvents (InitializeVideoMemoryBuffers cpc boot)
        (DrawSpriteBackBufferToScreen cpc (InitializeVideoMemoryBuffers cpc boot))
      = [Event.getScreenPtr 0xC000 20 48, Event.waitVSYNC,
         Event.drawSprite 0x5000 49652 40 100] ∧
    inRegion 0xC000 49652 ∧ ¬ inRegion 0x8000 49652 ∧
    (InitializeVideoMemoryBuffers cpc boot).mem 49652 = 206 ∧
    (DrawSpriteBackBufferToScreen cpc (InitializeVideoMemoryBuffers cpc boot)).mem 49652
      = 150 := by
  refine ⟨by decide, by decide, by decide, by decide, by decide, by decide, ?_⟩
  decide!

/-- C4, amended: in every state reached after `InitializeVideoMemoryBuffers`,
the one blit of `DrawSpriteBackBufferToScreen` has as destination the pointer
that `cpct_getScreenPtr` gives for the viewport origin in the region the flag
marks as displayed.  When `cpct_getScreenPtr` maps the viewport origin of each
region into that region and the regions are disjoint, the destination lies in
the displayed region and not in the hidden one; memory changes by that blit
only. -/
theorem draw_targets_displayed_region (d : Env) (hd : d.WellTyped)
    (hdisj : d.RegionsDisjoint)
    (hV : inRegion d.CPCT_VMEM_START (d.getScreenPtr d.CPCT_VMEM_START d.VIEW_X d.VIEW_Y))
    (hS : inRegion d.SCREEN_BUFF (d.getScreenPtr d.SCREEN_BUFF d.VIEW_X d.VIEW_Y))
    (s0 : State) (ops : List Op) :
    ∃ shown hidden : Nat,
      displayedBase d (run d (InitializeVideoMemoryBuffers d s0) ops).gVMem = some shown ∧
      hiddenBase d (run d (InitializeVideoMemoryBuffers d s0) ops).gVMem = some hidden ∧
      newEvents (run d (InitializeVideoMemoryBuffers d s0) ops)
          (DrawSpriteBackBufferToScreen d (run d (InitializeVideoMemoryBuffers d s0) ops))
        = [Event.getScreenPtr shown d.VIEW_X d.VIEW_Y, Event.waitVSYNC,
           Event.drawSprite d.gSpriteBackBuffer (d.getScreenPtr shown d.VIEW_X d.VIEW_Y)
             d.VIEW_W_BYTES d.VIEW_H_BYTES] ∧
      inRegion shown (d.getScreenPtr shown d.VIEW_X d.VIEW_Y) ∧
      ¬ inRegion hidden (d.getScreenPtr shown d.VIEW_X d.VIEW_Y) ∧
      (DrawSpriteBackBufferToScreen d (run d (InitializeVideoMemoryBuffers d s0) ops)).mem
        = d.drawSprite (run d (InitializeVideoMemoryBuffers d s0) ops).mem
            d.gSpriteBackBuffer (d.getScreenPtr shown d.VIEW_X d.VIEW_Y)
            d.VIEW_W_BYTES d.VIEW_H_BYTES := by
  have hf := run_flagOk d hd ops _ (init_flagOk d hd s0)
  generalize run d (InitializeVideoMemoryBuffers d s0) ops = s at hf
  obtain ⟨-, -, hSB, hVM, -, -, hX, hY, hW, hH⟩ := hd
  have hnotS : ¬ inRegion d.SCREEN_BUFF (d.getScreenPtr d.CPCT_VMEM_START d.VIEW_X d.VIEW_Y) := by
    unfold inRegion at *; unfold Env.RegionsDisjoint at hdisj; omega
  have hnotV : ¬ inRegion d.CPCT_VMEM_START (d.getScreenPtr d.SCREEN_BUFF d.VIEW_X d.VIEW_Y) := by
    unfold inRegion at *; unfold Env.RegionsDisjoint at hdisj; omega
  by_cases h : s.gVMem = d.VIDEO_MEM
  · refine ⟨d.CPCT_VMEM_START, d.SCREEN_BUFF, by simp [displayedBase, h],
      by simp [hiddenBase, h], ?_, hV, hnotS, ?_⟩
    · apply newEvents_append
      rw [draw_trace]
      simp [GetScreenPtr, cpct_getScreenPtr, h, u16_of_lt hVM, u8_of_lt hX, u8_of_lt hY,
        u8_of_lt hW, u8_of_lt hH]
    · rw [draw_mem]
      simp [GetScreenPtr, cpct_getScreenPtr, h, u16_of_lt hVM, u8_of_lt hX, u8_of_lt hY,
        u8_of_lt hW, u8_of_lt hH]
  · have hb : s.gVMem = d.BUFFER_MEM := hf.resolve_left h
    have hbv : ¬ d.BUFFER_MEM = d.VIDEO_MEM := fun e => h (hb.trans e)
    refine ⟨d.SCREEN_BUFF, d.CPCT_VMEM_START, by simp [displayedBase, hb, hbv],
      by simp [hiddenBase, hb, hbv], ?_, hS, hnotV, ?_⟩
    · apply newEvents_append
      rw [draw_trace]
      simp [GetScreenPtr, cpct_getScreenPtr, h, u16_of_lt hSB, u8_of_lt hX, u8_of_lt hY,
        u8_of_lt hW, u8_of_lt hH]
    · rw [draw_mem]
      simp [GetScreenPtr, cpct_getScreenPtr, h, u16_of_lt hSB, u8_of_lt hX, u8_of_lt hY,
        u8_of_lt hW, u8_of_lt hH]

/-- Witness for the amended C4 on the concrete machine, after one flip. -/
theorem draw_targets_displayed_region_witness :
    cpc.WellTyped ∧ cpc.RegionsDisjoint ∧
    inRegion cpc.CPCT_VMEM_START (cpc.getScreenPtr cpc.CPCT_VMEM_START cpc.VIEW_X cpc.VIEW_Y) ∧
    inRegion cpc.SCREEN_BUFF (cpc.getScreenPtr cpc.SCREEN_BUFF cpc.VIEW_X cpc.VIEW_Y) ∧
    ∃ shown hidden : Nat,
      displayedBase cpc (run cpc (InitializeVideoMemoryBuffers cpc boot) [Op.flip]).gVMem
        = some shown ∧
      hiddenBase cpc (run cpc (InitializeVideoMemoryBuffers cpc boot) [Op.flip]).gVMem
        = some hidden ∧
      newEvents (run cpc (InitializeVideoMemoryBuffers cpc boot) [Op.flip])
          (DrawSpriteBackBufferToScreen cpc
            (run cpc (InitializeVideoMemoryBuffers cpc boot) [Op.flip]))
        = [Event.getScreenPtr shown cpc.VIEW_X cpc.VIEW_Y, Event.waitVSYNC,
           Event.drawSprite cpc.gSpriteBackBuffer (cpc.getScreenPtr shown cpc.VIEW_X cpc.VIEW_Y)
             cpc.VIEW_W_BYTES cpc.VIEW_H_BYTES] ∧
      inRegion shown (cpc.getScreenPtr shown cpc.VIEW_X cpc.VIEW_Y) ∧
      ¬ inRegion hidden (cpc.getScreenPtr shown cpc.VIEW_X cpc.VIEW_Y) ∧
      (DrawSpriteBackBufferToScreen cpc
          (run cpc (InitializeVideoMemoryBuffers cpc boot) [Op.flip])).mem
        = cpc.drawSprite (run cpc (InitializeVideoMemoryBuffers cpc boot) [Op.flip]).mem
            cpc.gSpriteBackBuffer (cpc.getScreenPtr shown cpc.VIEW_X cpc.VIEW_Y)
            cpc.VIEW_W_BYTES cpc.VIEW_H_BYTES :=
  ⟨by decide, by decide, by decide, by decide,
    draw_targets_displayed_region cpc (by decide) (by decide) (by decide) (by decide)
      boot [Op.flip]⟩

/-- C5: for every display state, `DrawSpriteBackBufferToScreen` issues exactly
one blit; its source is the staging buffer `gSpriteBackBuffer` with width
`VIEW_W_BYTES` and height `VIEW_H_BYTES`, its destination is
`GetScreenPtr (VIEW_X, VIEW_Y)`, and that pointer has the same value at call
entry and after the vsync wait. -/
theorem draw_blits_once (d : Env) (hd : d.WellTyped) (s : State) :
    (∃ base, newEvents s (DrawSpriteBackBufferToScreen d s)
      = [Event.getScreenPtr base d.VIEW_X d.VIEW_Y, Event.waitVSYNC,
         Event.drawSprite d.gSpriteBackBuffer (GetScreenPtr d s d.VIEW_X d.VIEW_Y).1
           d.VIEW_W_BYTES d.VIEW_H_BYTES]) ∧
    (newEvents s (DrawSpriteBackBufferToScreen d s)).countP Event.isBlit = 1 ∧
    (GetScreenPtr d (cpct_waitVSYNC (GetScreenPtr d s d.VIEW_X d.VIEW_Y).2)
        d.VIEW_X d.VIEW_Y).1 = (GetScreenPtr d s d.VIEW_X d.VIEW_Y).1 ∧
    (DrawSpriteBackBufferToScreen d s).mem
      = d.drawSprite s.mem d.gSpriteBackBuffer (GetScreenPtr d s d.VIEW_X d.VIEW_Y).1
          d.VIEW_W_BYTES d.VIEW_H_BYTES := by
  obtain ⟨-, -, -, -, -, -, hX, hY, hW, hH⟩ := hd
  have ht := newEvents_append s _ _ (draw_trace d s)
  rw [u8_of_lt hX, u8_of_lt hY, u8_of_lt hW, u8_of_lt hH] at ht
  refine ⟨⟨_, ht⟩, ?_, rfl, ?_⟩
  · rw [ht]; rfl
  · rw [draw_mem, u8_of_lt hW, u8_of_lt hH]

/-- Witness for C5 on the concrete machine, in a state whose flag is neither
`VIDEO_MEM` nor `BUFFER_MEM`. -/
theorem draw_blits_once_witness :
    cpc.WellTyped ∧
    (newEvents boot (DrawSpriteBackBufferToScreen cpc boot)).countP Event.isBlit = 1 :=
  ⟨by decide, (draw_blits_once cpc (by decide) boot).2.1⟩

/-! ## Flag and page register -/

theorem init_agree (d : Env) (hd : d.WellTyped) (s0 : State)
    (hp0 : s0.page = d.cpct_pageC0) : Agree d (InitializeVideoMemoryBuffers d s0) :=
  Or.inl ⟨by rw [init_gVMem, u8_of_lt hd.1], by rw [init_page, hp0]⟩

/-- C6: start with page C0 selected.  In every state reached from
`InitializeVideoMemoryBuffers` by calls of `FlipBuffers`, the pointer queries
and `DrawSpriteBackBufferToScreen`, the flag is `VIDEO_MEM` exactly when page C0
is selected and `BUFFER_MEM` exactly when page 80 is selected, and
`GetScreenPtr` resolves against the base of the region that is scanned out. -/
theorem flag_tracks_page (d : Env) (hd : d.WellTyped)
    (hne : d.VIDEO_MEM ≠ d.BUFFER_MEM) (hpg : d.cpct_pageC0 ≠ d.cpct_page80)
    (s0 : State) (hp0 : s0.page = d.cpct_pageC0)
    (ops : List Op) (hops : Op.init ∉ ops) :
    ((run d (InitializeVideoMemoryBuffers d s0) ops).gVMem = d.VIDEO_MEM ↔
      (run d (InitializeVideoMemoryBuffers d s0) ops).page = d.cpct_pageC0) ∧
    ((run d (InitializeVideoMemoryBuffers d s0) ops).gVMem = d.BUFFER_MEM ↔
      (run d (InitializeVideoMemoryBuffers d s0) ops).page = d.cpct_page80) ∧
    ∃ base, scannedBase d (run d (InitializeVideoMemoryBuffers d s0) ops).page = some base ∧
      ∀ x y, GetScreenPtr d (run d (InitializeVideoMemoryBuffers d s0) ops) x y
        = cpct_getScreenPtr d (run d (InitializeVideoMemoryBuffers d s0) ops) base x y := by
  have ha := run_agree d hd hne ops hops _ (init_agree d hd s0 hp0)
  generalize run d (InitializeVideoMemoryBuffers d s0) ops = s at ha
  obtain ⟨-, -, hSB, hVM, -⟩ := hd
  rcases ha with ⟨h1, h2⟩ | ⟨h1, h2⟩
  · refine ⟨by simp [h1, h2], by simp [h1, h2, hne, hpg], d.CPCT_VMEM_START,
      by simp [scannedBase, h2], ?_⟩
    intro x y
    simp [GetScreenPtr, h1, u16_of_lt hVM]
  · refine ⟨by simp [h1, h2, hne.symm, hpg.symm], by simp [h1, h2], d.SCREEN_BUFF,
      by simp [scannedBase, h2, hpg.symm], ?_⟩
    intro x y
    simp [GetScreenPtr, h1, hne.symm, u16_of_lt hSB]

/-- Witness for C6 on the concrete machine: flip, draw, query, flip, flip. -/
theorem flag_tracks_page_witness :
    cpc.WellTyped ∧ cpc.VIDEO_MEM ≠ cpc.BUFFER_MEM ∧ cpc.cpct_pageC0 ≠ cpc.cpct_page80 ∧
    boot.page = cpc.cpct_pageC0 ∧
    Op.init ∉ [Op.flip, Op.drawSpriteBackBuffer, Op.getBackBufferPtr 1 2, Op.flip, Op.flip] ∧
    (run cpc (InitializeVideoMemoryBuffers cpc boot)
      [Op.flip, Op.drawSpriteBackBuffer, Op.getBackBufferPtr 1 2, Op.flip, Op.flip]).gVMem
      = cpc.BUFFER_MEM ∧
    (run cpc (InitializeVideoMemoryBuffers cpc boot)
      [Op.flip, Op.drawSpriteBackBuffer, Op.getBackBufferPtr 1 2, Op.flip, Op.flip]).page
      = cpc.cpct_page80 :=
  ⟨by decide, by decide, by decide, by decide, by decide, by decide,
    ((flag_tracks_page cpc (by decide) (by decide) (by decide) boot (by decide)
      [Op.flip, Op.drawSpriteBackBuffer, Op.getBackBufferPtr 1 2, Op.flip, Op.flip]
      (by decide)).2.1).mp (by decide)⟩

/-! ## Running the initialization again -/

/-- C7, as stated, fails on the concrete machine: after initialize and one flip
the flag (`BUFFER_MEM`) and the page register (page 80) agree; a second
`InitializeVideoMemoryBuffers` sets the flag to `VIDEO_MEM` and leaves page 80
selected, so the hardware scans out the region at 0x8000 while `GetScreenPtr`
resolves against 0xC000. -/
theorem reinit_breaks_agreement_cpc :
    Agree cpc (flips cpc boot 1) ∧
    ¬ Agree cpc (InitializeVideoMemoryBuffers cpc (flips cpc boot 1)) ∧
    (InitializeVideoMemoryBuffers cpc (flips cpc boot 1)).gVMem = cpc.VIDEO_MEM ∧
    (InitializeVideoMemoryBuffers cpc (flips cpc boot 1)).page = cpc.cpct_page80 ∧
    scannedBase cpc (InitializeVideoMemoryBuffers cpc (flips cpc boot 1)).page
      = some 0x8000 ∧
    (GetScreenPtr cpc (InitializeVideoMemoryBuffers cpc (flips cpc boot 1)) 0 0).1
      = 0xC000 := by
  refine ⟨by decide, by decide, by decide, by decide, by decide, by decide⟩

theorem flips_agree (d : Env) (hd : d.WellTyped) (hne : d.VIDEO_MEM ≠ d.BUFFER_MEM)
    (s0 : State) (hp0 : s0.page = d.cpct_pageC0) (n : Nat) :
    Agree d (flips d s0 n) := by
  apply run_agree d hd hne _ _ _ (init_agree d hd s0 hp0)
  intro h
  have := List.eq_of_mem_replicate h
  exact Op.noConfusion this

/-- C7, amended: start with page C0 selected.  After the first
`InitializeVideoMemoryBuffers` and an even number of `FlipBuffers` calls,
running the initialization again keeps flag and page register in agreement.
After an odd number of flips it sets the flag to `VIDEO_MEM` while page 80 stays
selected, so they no longer agree.  In both cases the bytes of the region that
is scanned out keep their values. -/
theorem reinit_after_flips (d : Env) (hd : d.WellTyped)
    (hne : d.VIDEO_MEM ≠ d.BUFFER_MEM) (hpg : d.cpct_pageC0 ≠ d.cpct_page80)
    (hdisj : d.RegionsDisjoint)
    (s0 : State) (hp0 : s0.page = d.cpct_pageC0) (n : Nat) :
    (n % 2 = 0 → Agree d (InitializeVideoMemoryBuffers d (flips d s0 n))) ∧
    (n % 2 = 1 →
      (InitializeVideoMemoryBuffers d (flips d s0 n)).gVMem = d.VIDEO_MEM ∧
      (InitializeVideoMemoryBuffers d (flips d s0 n)).page = d.cpct_page80 ∧
      ¬ Agree d (InitializeVideoMemoryBuffers d (flips d s0 n))) ∧
    (∀ base a, scannedBase d (flips d s0 n).page = some base → inRegion base a →
      (InitializeVideoMemoryBuffers d (flips d s0 n)).mem a = (flips d s0 n).mem a) := by
  have ha := flips_agree d hd hne s0 hp0 n
  have hfl := flips_flag d hd s0 n
  obtain ⟨hV, hB, hSB, hVM, -⟩ := hd
  have hpage : (flips d s0 n).page =
      if n % 2 = 0 then d.cpct_pageC0 else d.cpct_page80 := by
    rcases ha with ⟨h1, h2⟩ | ⟨h1, h2⟩
    · rw [h2]; rw [h1] at hfl
      by_cases e : n % 2 = 0
      · simp [e]
      · simp [e] at hfl; exact absurd hfl hne
    · rw [h2]; rw [h1] at hfl
      by_cases e : n % 2 = 0
      · simp [e] at hfl; exact absurd hfl.symm hne
      · simp [e]
  refine ⟨?_, ?_, ?_⟩
  · intro e
    refine Or.inl ⟨by rw [init_gVMem, u8_of_lt hV], ?_⟩
    rw [init_page, hpage, if_pos e]
  · intro e
    have e0 : ¬ n % 2 = 0 := by omega
    have h1 : (InitializeVideoMemoryBuffers d (flips d s0 n)).gVMem = d.VIDEO_MEM := by
      rw [init_gVMem, u8_of_lt hV]
    have h2 : (InitializeVideoMemoryBuffers d (flips d s0 n)).page = d.cpct_page80 := by
      rw [init_page, hpage, if_neg e0]
    refine ⟨h1, h2, ?_⟩
    rintro (⟨-, h3⟩ | ⟨h3, -⟩)
    · exact hpg (h3.symm.trans h2)
    · exact hne (h1.symm.trans h3)
  · intro base a hb hin
    rw [init_mem, u16_of_lt hSB]
    unfold inRegion regionSize at hin
    unfold Env.RegionsDisjoint regionSize at hdisj
    by_cases e : n % 2 = 0
    · rw [hpage, if_pos e] at hb
      have hb2 : base = d.CPCT_VMEM_START := by simpa [scannedBase, eq_comm] using hb
      subst hb2
      rw [if_neg (by omega)]
    · rw [hpage, if_neg e] at hb
      have hb2 : base = d.SCREEN_BUFF := by
        simpa [scannedBase, hpg.symm, eq_comm] using hb
      subst hb2
      rw [if_pos ⟨hin.1, hin.2⟩, flips_mem, init_mem, u16_of_lt hSB,
        if_pos ⟨hin.1, hin.2⟩]

/-- Witness for the amended C7 on the concrete machine, two flips. -/
theorem reinit_after_flips_witness :
    cpc.WellTyped ∧ cpc.VIDEO_MEM ≠ cpc.BUFFER_MEM ∧ cpc.cpct_pageC0 ≠ cpc.cpct_page80 ∧
    cpc.RegionsDisjoint ∧ boot.page = cpc.cpct_pageC0 ∧
    Agree cpc (InitializeVideoMemoryBuffers cpc (flips cpc boot 2)) :=
  ⟨by decide, by decide, by decide, by decide, by decide,
    (reinit_after_flips cpc (by decide) (by decide) (by decide) (by decide) boot
      (by decide) 2).1 (by decide)⟩

/-! ## The sprite staging buffer -/

/-- C8: for `x < VIEW_W_BYTES` and `y < VIEW_H_BYTES`,
`GetSpriteBackBufferPtr (x, y)` is the buffer address plus `y * VIEW_W_BYTES + x`,
with no wrap-around; the offset is below the buffer size
`VIEW_W_BYTES * VIEW_H_BYTES`; the result is the same in every state, and the
call leaves the state as it is. -/
theorem sprite_ptr_row_major (d : Env) (hd : d.WellTyped)
    (hfit : d.gSpriteBackBuffer + d.VIEW_W_BYTES * d.VIEW_H_BYTES ≤ 65536)
    (s : State) (x y : Nat) (hx : x < d.VIEW_W_BYTES) (hy : y < d.VIEW_H_BYTES) :
    (GetSpriteBackBufferPtr d s x y).1 = d.gSpriteBackBuffer + y * d.VIEW_W_BYTES + x ∧
    y * d.VIEW_W_BYTES + x < d.VIEW_W_BYTES * d.VIEW_H_BYTES ∧
    (∀ t : State, (GetSpriteBackBufferPtr d t x y).1 = (GetSpriteBackBufferPtr d s x y).1) ∧
    (GetSpriteBackBufferPtr d s x y).2 = s := by
  obtain ⟨-, -, -, -, -, -, -, -, hW, hH⟩ := hd
  have hoff : y * d.VIEW_W_BYTES + x < d.VIEW_W_BYTES * d.VIEW_H_BYTES := by
    calc y * d.VIEW_W_BYTES + x < y * d.VIEW_W_BYTES + d.VIEW_W_BYTES := by omega
      _ = d.VIEW_W_BYTES * (y + 1) := by ring
      _ ≤ d.VIEW_W_BYTES * d.VIEW_H_BYTES := Nat.mul_le_mul_left _ hy
  refine ⟨?_, hoff, fun t => rfl, rfl⟩
  have hx8 : x < 256 := by omega
  have hy8 : y < 256 := by omega
  simp only [GetSpriteBackBufferPtr, cpctm_spriteBufferPtr, u8_of_lt hx8, u8_of_lt hy8]
  rw [Nat.mul_comm d.VIEW_W_BYTES y]
  exact u16_of_lt (by omega)

/-- Witness for C8 on the concrete machine: the last byte of the buffer, whose
offset 3999 does not fit in 8 bits. -/
theorem sprite_ptr_row_major_witness :
    cpc.WellTyped ∧ cpc.gSpriteBackBuffer + cpc.VIEW_W_BYTES * cpc.VIEW_H_BYTES ≤ 65536 ∧
    39 < cpc.VIEW_W_BYTES ∧ 99 < cpc.VIEW_H_BYTES ∧
    (GetSpriteBackBufferPtr cpc boot 39 99).1 = 0x5000 + 3999 :=
  ⟨by decide, by decide, by decide, by decide,
    (sprite_ptr_row_major cpc (by decide) (by decide) boot 39 99 (by decide) (by decide)).1⟩

/-! ## Order of hardware actions -/

/-- C9: one `FlipBuffers` call adds exactly the events vsync wait, page-register
write, flag store, in this order; one `DrawSpriteBackBufferToScreen` call adds
the pointer computation, then one vsync wait, then the blit.  In both there is
exactly one vsync wait and it comes before the page write, the flag store and
the blit; the wait itself changes neither flag, page register nor memory. -/
theorem vsync_comes_first (d : Env) (s : State) :
    newEvents s (FlipBuffers d s)
      = [Event.waitVSYNC,
         Event.setVideoMemoryPage
           (if s.gVMem = d.BUFFER_MEM then u8 d.cpct_pageC0 else u8 d.cpct_page80),
         Event.store_gVMem
           (if s.gVMem = d.BUFFER_MEM then u8 d.VIDEO_MEM else u8 d.BUFFER_MEM)] ∧
    (newEvents s (FlipBuffers d s)).countP Event.isVsync = 1 ∧
    ((newEvents s (FlipBuffers d s)).takeWhile (fun e => !e.isVsync)).all
      (fun e => !e.isPageWrite && !e.isFlagStore) = true ∧
    (∃ base, newEvents s (DrawSpriteBackBufferToScreen d s)
      = [Event.getScreenPtr base (u8 d.VIEW_X) (u8 d.VIEW_Y),
         Event.waitVSYNC,
         Event.drawSprite d.gSpriteBackBuffer (GetScreenPtr d s d.VIEW_X d.VIEW_Y).1
           (u8 d.VIEW_W_BYTES) (u8 d.VIEW_H_BYTES)]) ∧
    (newEvents s (DrawSpriteBackBufferToScreen d s)).countP Event.isVsync = 1 ∧
    ((newEvents s (DrawSpriteBackBufferToScreen d s)).takeWhile (fun e => !e.isVsync)).all
      (fun e => !e.isBlit) = true ∧
    ((cpct_waitVSYNC s).gVMem = s.gVMem ∧ (cpct_waitVSYNC s).page = s.page ∧
      (cpct_waitVSYNC s).mem = s.mem) := by
  have hf := newEvents_append s _ _ (flip_trace d s)
  have hdr := newEvents_append s _ _ (draw_trace d s)
  refine ⟨hf, ?_, ?_, ⟨_, hdr⟩, ?_, ?_, rfl, rfl, rfl⟩
  · rw [hf]; rfl
  · rw [hf]; rfl
  · rw [hdr]; rfl
  · rw [hdr]; rfl

/-! ## The two pointer operations use different regions -/

/-- C10: for every value of the flag and every (x, y), `GetScreenPtr` and
`GetBackBufferPtr` resolve against different bases, one against
`CPCT_VMEM_START` and the other against `SCREEN_BUFF`; and neither of them, nor
`GetSpriteBackBufferPtr`, nor `DrawSpriteBackBufferToScreen`, changes the flag. -/
theorem pointer_bases_differ (d : Env) (hd : d.WellTyped)
    (hb : d.CPCT_VMEM_START ≠ d.SCREEN_BUFF) (s : State) (x y : Nat) :
    (∃ b1 b2, b1 ≠ b2 ∧
      ((b1 = d.CPCT_VMEM_START ∧ b2 = d.SCREEN_BUFF) ∨
       (b1 = d.SCREEN_BUFF ∧ b2 = d.CPCT_VMEM_START)) ∧
      GetScreenPtr d s x y = cpct_getScreenPtr d s b1 x y ∧
      GetBackBufferPtr d s x y = cpct_getScreenPtr d s b2 x y) ∧
    (GetScreenPtr d s x y).2.gVMem = s.gVMem ∧
    (GetBackBufferPtr d s x y).2.gVMem = s.gVMem ∧
    (GetSpriteBackBufferPtr d s x y).2.gVMem = s.gVMem ∧
    (DrawSpriteBackBufferToScreen d s).gVMem = s.gVMem := by
  obtain ⟨-, -, hSB, hVM, -⟩ := hd
  refine ⟨?_, rfl, rfl, rfl, rfl⟩
  by_cases h : s.gVMem = d.VIDEO_MEM
  · exact ⟨d.CPCT_VMEM_START, d.SCREEN_BUFF, hb, Or.inl ⟨rfl, rfl⟩,
      by simp [GetScreenPtr, h, u16_of_lt hVM],
      by simp [GetBackBufferPtr, h, u16_of_lt hSB]⟩
  · exact ⟨d.SCREEN_BUFF, d.CPCT_VMEM_START, hb.symm, Or.inr ⟨rfl, rfl⟩,
      by simp [GetScreenPtr, h, u16_of_lt hSB],
      by simp [GetBackBufferPtr, h, u16_of_lt hVM]⟩

/-- Witness for C10 on the concrete machine, with the flag at 7, which is
neither `VIDEO_MEM` nor `BUFFER_MEM`. -/
theorem pointer_bases_differ_witness :
    cpc.WellTyped ∧ cpc.CPCT_VMEM_START ≠ cpc.SCREEN_BUFF ∧ boot.gVMem = 7 ∧
    (GetScreenPtr cpc boot 0 0).1 = 0x8000 ∧ (GetBackBufferPtr cpc boot 0 0).1 = 0xC000 ∧
    (DrawSpriteBackBufferToScreen cpc boot).gVMem = boot.gVMem :=
  ⟨by decide, by decide, by decide, by decide, by decide,
    (pointer_bases_differ cpc (by decide) (by decide) boot 0 0).2.2.2.2⟩

end SoftDoubleBuffer
